import Mathlib

/-!
Shallow embedding of the PandasAI MCP service (src/dist/index.js).

The service is a single-tenant Express app holding two pieces of global
mutable state, `currentDataframe` and `currentLLM` (index.js lines 76-77).
We embed that state as an explicit `SessionState` record threaded through
the handlers.  The external collaborators (LLMManager.configureLLM,
DataAnalyzer.analyze, the mcp-handler metadata calls, and the CSV/Excel
table loader) live in separate modules the spec declares out of scope;
they are universally quantified function parameters returning
`Except String _` (a JS promise that either resolves or rejects with an
error message).  Fallible handler bodies return
`SessionState × Except String _`: the state component records the global
mutations that survive even when the handler throws.
-/

/-- A row record: mapping from column name to scalar value (a parsed
CSV/Excel row object). -/
abbrev Row := List (String × String)

/-- The `currentDataframe` object built at index.js lines 286-291:
`{data, filename, rows, columns}`. -/
structure Dataframe where
  data : List Row
  filename : String
  rows : Nat
  columns : Nat
  deriving DecidableEq, Repr

/-- An LLM configuration object; the core only interprets its `model`
field (absent fields are JS `undefined`, hence `Option`). -/
structure LLMConfig where
  model : Option String
  deriving DecidableEq, Repr

/-- Opaque backend handle produced by `llmManager.configureLLM`. -/
structure LLM where
  tag : String
  deriving DecidableEq, Repr

/-- The process-wide mutable globals `currentDataframe` / `currentLLM`
(index.js lines 76-77); JS `null` is `none`. -/
structure SessionState where
  currentDataframe : Option Dataframe
  currentLLM : Option LLM
  deriving DecidableEq, Repr

/-- The arguments object of a tool call; handlers destructure the fields
they care about (`query`, `llm_config` for analyze_data; `model` for
configure_llm). -/
structure ToolArgs where
  query : Option String
  llm_config : Option LLMConfig
  model : Option String
  deriving DecidableEq, Repr

/-- `params` of an MCP request; `tools/call` destructures `{name, arguments}`
(index.js line 130). -/
structure MCPParams where
  name : String
  arguments : ToolArgs
  deriving DecidableEq, Repr

/-- An MCP request body `{method, params}` (index.js line 86). -/
structure MCPRequest where
  method : String
  params : MCPParams
  deriving DecidableEq, Repr

/-- One item of a tool result content array: `{type: 'text', text}`. -/
structure ContentItem where
  type : String
  text : String
  deriving DecidableEq, Repr

/-- A tool result envelope `{content: [...]}` (index.js lines 167-172). -/
structure ToolResult where
  content : List ContentItem
  deriving DecidableEq, Repr

/-- Result object of `dataAnalyzer.analyze`; the handler reads `.answer`
(index.js line 170), which may be JS-absent or empty. -/
structure AnalysisResult where
  answer : Option String
  deriving DecidableEq, Repr

/-- JS `v || d` for a possibly-absent string `v`: absent, null and the
empty string are falsy. -/
def jsOrDefault (v : Option String) (d : String) : String :=
  match v with
  | none => d
  | some s => if s = "" then d else s

/-- JS truthiness test `!q` for a possibly-absent string value. -/
def jsFalsyStr (v : Option String) : Bool :=
  match v with
  | none => true
  | some s => s = ""

/-- Message of the error thrown at index.js line 152 when no dataset is
loaded ("please upload a data file first"). -/
def noDatasetMsg : String := "请先上传数据文件"

/-- Message of the error thrown at index.js line 161 when no LLM is
configured ("please configure the LLM first"). -/
def noLLMMsg : String := "请先配置LLM"

/-- Prefix added by the catch at index.js line 175: "数据分析失败: "
("data analysis failed: "). -/
def analyzeFailPre : String := "数据分析失败: "

/-- Prefix added by the catch at index.js line 194: "LLM配置失败: "
("LLM configuration failed: "). -/
def cfgFailPre : String := "LLM配置失败: "

/-- Placeholder answer `'分析完成'` used when the engine yields no text
(index.js line 170). -/
def defaultAnswer : String := "分析完成"

/-- Lines 165-171 of handleAnalyzeData: run `dataAnalyzer.analyze` and wrap
its answer into the content envelope; a rejection propagates to the catch
at line 175, which prefixes `数据分析失败: `. -/
def runAnalysis
    (analyze : Dataframe → Option String → LLM → Except String AnalysisResult)
    (df : Dataframe) (query : Option String) (llm : LLM) :
    Except String ToolResult :=
  match analyze df query llm with
  | .error m => .error (analyzeFailPre ++ m)
  | .ok r =>
    .ok { content := [ { type := "text", text := jsOrDefault r.answer defaultAnswer } ] }

/-- handleAnalyzeData (index.js lines 147-177).  Order of the body:
dataset presence check (line 151), then the optional inline
`llm_config` configuration which assigns `currentLLM` (lines 156-158),
then the LLM presence check (line 160), then the engine call.  Every
rejection is re-thrown by the catch at line 175 with the
`数据分析失败: ` prefix.  The returned state records the surviving
assignment to `currentLLM`. -/
def handleAnalyzeData
    (cfgLLM : LLMConfig → Except String LLM)
    (analyze : Dataframe → Option String → LLM → Except String AnalysisResult)
    (st : SessionState) (args : ToolArgs) :
    SessionState × Except String ToolResult :=
  match st.currentDataframe with
  | none => (st, .error (analyzeFailPre ++ noDatasetMsg))
  | some df =>
    match args.llm_config with
    | some cfg =>
      match cfgLLM cfg with
      | .error m => (st, .error (analyzeFailPre ++ m))
      | .ok llm =>
        ({ st with currentLLM := some llm }, runAnalysis analyze df args.query llm)
    | none =>
      match st.currentLLM with
      | none => (st, .error (analyzeFailPre ++ noLLMMsg))
      | some llm => (st, runAnalysis analyze df args.query llm)

/-- handleConfigureLLM (index.js lines 182-196): configure from the raw
arguments object, store into `currentLLM`, confirm naming `args.model`
(JS template rendering of `undefined` when absent); a rejection is
re-thrown with the `LLM配置失败: ` prefix. -/
def handleConfigureLLM
    (cfgLLM : LLMConfig → Except String LLM)
    (st : SessionState) (args : ToolArgs) :
    SessionState × Except String ToolResult :=
  match cfgLLM { model := args.model } with
  | .error m => (st, .error (cfgFailPre ++ m))
  | .ok llm =>
    ({ st with currentLLM := some llm },
     .ok { content := [ { type := "text",
                          text := "LLM配置成功: " ++ args.model.getD "undefined" } ] })

/-- handleToolCall (index.js lines 129-142): second-level dispatch on the
tool name; the default arm throws `未知的工具: <name>` ("unknown tool"). -/
def handleToolCall
    (cfgLLM : LLMConfig → Except String LLM)
    (analyze : Dataframe → Option String → LLM → Except String AnalysisResult)
    (st : SessionState) (params : MCPParams) :
    SessionState × Except String ToolResult :=
  if params.name = "analyze_data" then
    handleAnalyzeData cfgLLM analyze st params.arguments
  else if params.name = "configure_llm" then
    handleConfigureLLM cfgLLM st params.arguments
  else
    (st, .error ("未知的工具: " ++ params.name))

/-- The value placed under `result` in a successful MCP response. -/
inductive MCPResultValue where
  | successAck
  | extResult (tag : String)
  | toolResult (r : ToolResult)
  deriving DecidableEq, Repr

/-- Body of an `/mcp` HTTP response: `{result}` or `{error:{code,message}}`. -/
inductive MCPBody where
  | result (r : MCPResultValue)
  | errorBody (code : Int) (message : String)
  deriving DecidableEq, Repr

/-- An `/mcp` HTTP response: status plus JSON body. -/
structure MCPResponse where
  status : Nat
  body : MCPBody
  deriving DecidableEq, Repr

/-- The `/mcp` dispatcher (index.js lines 84-124): switch on `method`;
the default arm throws `不支持的MCP方法: <method>` ("unsupported MCP
method"); the catch turns any thrown error into HTTP 400 with body
`{error: {code: -1, message}}`.  `mcpHandler.initialize` and
`mcpHandler.listTools` are external collaborators passed as `initFn` /
`listToolsFn`. -/
def handleMcp
    (initFn : MCPParams → Except String MCPResultValue)
    (listToolsFn : Unit → Except String MCPResultValue)
    (cfgLLM : LLMConfig → Except String LLM)
    (analyze : Dataframe → Option String → LLM → Except String AnalysisResult)
    (st : SessionState) (req : MCPRequest) :
    SessionState × MCPResponse :=
  if req.method = "initialize" then
    match initFn req.params with
    | .ok r => (st, { status := 200, body := .result r })
    | .error m => (st, { status := 400, body := .errorBody (-1) m })
  else if req.method = "notifications/initialized" then
    (st, { status := 200, body := .result .successAck })
  else if req.method = "tools/list" then
    match listToolsFn () with
    | .ok r => (st, { status := 200, body := .result r })
    | .error m => (st, { status := 400, body := .errorBody (-1) m })
  else if req.method = "tools/call" then
    match handleToolCall cfgLLM analyze st req.params with
    | (st1, .ok r) => (st1, { status := 200, body := .result (.toolResult r) })
    | (st1, .error m) => (st1, { status := 400, body := .errorBody (-1) m })
  else
    (st, { status := 400,
           body := .errorBody (-1) ("不支持的MCP方法: " ++ req.method) })

/-- The column count computed at index.js line 290:
`data.length > 0 ? Object.keys(data[0]).length : 0`. -/
def jsColumns (data : List Row) : Nat :=
  match data with
  | [] => 0
  | r :: _ => r.length

/-- Success body of `POST /upload` (index.js lines 296-302). -/
structure UploadSuccess where
  message : String
  filename : String
  rows : Nat
  columns : Nat
  preview : List Row
  deriving DecidableEq, Repr

/-- JSON body of an upload response: success shape or `{error}`. -/
inductive UploadBody where
  | ok (s : UploadSuccess)
  | err (error : String)
  deriving DecidableEq, Repr

/-- An upload HTTP response: status plus body. -/
structure UploadResponse where
  status : Nat
  body : UploadBody
  deriving DecidableEq, Repr

/-- The `POST /upload` handler (index.js lines 264-308).  `file` is
`req.file.originalname` when a file arrived (multer concern); `loadFile`
stands for the extension dispatch plus CSV/Excel read at lines 276-283
(TableLoader, external per the spec), rejecting with a message on any
read failure.  On success the handler overwrites `currentDataframe`
wholesale (lines 286-291) and answers with a 5-row preview; a rejection
lands in the catch at line 304 and yields HTTP 500 `{error}`.  The
temp-file unlink at line 294 is a filesystem side effect with no session
or response content and is not modelled. -/
def uploadHandler
    (loadFile : String → Except String (List Row))
    (file : Option String) (st : SessionState) :
    SessionState × UploadResponse :=
  match file with
  | none => (st, { status := 400, body := .err "请选择要上传的文件" })
  | some fname =>
    match loadFile fname with
    | .error m => (st, { status := 500, body := .err m })
    | .ok data =>
      let df : Dataframe :=
        { data := data, filename := fname,
          rows := data.length, columns := jsColumns data }
      ({ st with currentDataframe := some df },
       { status := 200,
         body := .ok { message := "文件上传成功", filename := fname,
                       rows := data.length, columns := jsColumns data,
                       preview := data.take 5 } })

/-- Body of a `POST /analyze` response. -/
inductive AnalyzeBody where
  | ok (r : ToolResult)
  | err (error : String)
  deriving DecidableEq, Repr

/-- A `POST /analyze` HTTP response. -/
structure AnalyzeResponse where
  status : Nat
  body : AnalyzeBody
  deriving DecidableEq, Repr

/-- The `POST /analyze` handler (index.js lines 313-328): destructure
`{query, llm_config}`, reject any falsy `query` with HTTP 400 before
calling handleAnalyzeData, otherwise forward and translate the outcome
(success 200, thrown error 500 `{error}`). -/
def analyzeEndpoint
    (cfgLLM : LLMConfig → Except String LLM)
    (analyze : Dataframe → Option String → LLM → Except String AnalysisResult)
    (st : SessionState) (query : Option String) (llm_config : Option LLMConfig) :
    SessionState × AnalyzeResponse :=
  if jsFalsyStr query then
    (st, { status := 400, body := .err "请提供分析查询" })
  else
    match handleAnalyzeData cfgLLM analyze st
        { query := query, llm_config := llm_config, model := none } with
    | (st1, .ok r) => (st1, { status := 200, body := .ok r })
    | (st1, .error m) => (st1, { status := 500, body := .err m })

/-- Connection greeting written at index.js line 216. -/
def sseConnMessage : String := "已连接到PandasAI MCP服务"

/-- Payload of an SSE `status` event (index.js lines 230-240). -/
structure SSEStatus where
  service : String
  version : String
  status : String
  dataLoaded : Bool
  llmConfigured : Bool
  timestamp : Nat
  deriving DecidableEq, Repr

/-- An SSE event, the tagged union written as `data: <JSON>`
(index.js lines 214-247). -/
inductive SSEEvent where
  | connection (message : String) (timestamp : Nat)
  | heartbeat (timestamp : Nat)
  | status (data : SSEStatus)
  deriving DecidableEq, Repr

/-- The `sendStatus` closure (index.js lines 229-241): a snapshot of the
session presence flags (`currentDataframe !== null`,
`currentLLM !== null`) plus fixed service identity, stamped with the
emission time. -/
def sendStatusEvent (st : SessionState) (t : Nat) : SSEEvent :=
  .status { service := "PandasAI MCP Service", version := "1.0.0",
            status := "running",
            dataLoaded := st.currentDataframe.isSome,
            llmConfigured := st.currentLLM.isSome,
            timestamp := t }

/-- Whether the SSE connection is still open `t` milliseconds after
subscribe: the `close` handler (index.js lines 250-254) clears both
interval timers the moment the client disconnects. -/
def sseOpen (closeAt : Option Nat) (t : Nat) : Bool :=
  match closeAt with
  | none => true
  | some c => t < c

/-- Discrete-time trace semantics of the `/sse` handler (index.js lines
203-257): the events written exactly `t` milliseconds after subscribe.
At `t = 0` the handler body synchronously writes the `connection` event
(line 214) and then one immediate `status` event (line 244).
`setInterval(.., 30000)` at line 221 fires the heartbeat at every
positive multiple of 30000 and `setInterval(sendStatus, 60000)` at line
247 fires a status snapshot at every positive multiple of 60000 — the
heartbeat timer is registered first, so it fires first when both are
due.  `sess` gives the global session state at each instant (the
closures read the live globals), and after `closeAt` both timers are
cleared, so nothing is emitted. -/
def sseEventsAt (sess : Nat → SessionState) (closeAt : Option Nat) (t : Nat) :
    List SSEEvent :=
  if t = 0 then
    [ .connection sseConnMessage 0, sendStatusEvent (sess 0) 0 ]
  else if sseOpen closeAt t then
    (if t % 30000 = 0 then [SSEEvent.heartbeat t] else []) ++
    (if t % 60000 = 0 then [sendStatusEvent (sess t) t] else [])
  else []

/-! Concrete collaborator instances and states used by the witnesses. -/

/-- A vacuous external `mcpHandler.initialize`. -/
def initFn0 : MCPParams → Except String MCPResultValue :=
  fun _ => .ok (.extResult "init")

/-- A vacuous external `mcpHandler.listTools`. -/
def listTools0 : Unit → Except String MCPResultValue :=
  fun _ => .ok (.extResult "tools")

/-- A configurator that always succeeds, handing back a handle tagged by
the model name. -/
def cfgSuccess : LLMConfig → Except String LLM :=
  fun c => .ok { tag := c.model.getD "default" }

/-- A configurator that always rejects. -/
def cfgReject : LLMConfig → Except String LLM :=
  fun _ => .error "配置失败原因"

/-- An analysis engine that always answers. -/
def anSuccess : Dataframe → Option String → LLM → Except String AnalysisResult :=
  fun _ _ _ => .ok { answer := some "共有2行数据" }

/-- An analysis engine that always rejects. -/
def anReject : Dataframe → Option String → LLM → Except String AnalysisResult :=
  fun _ _ _ => .error "引擎故障"

/-- A loaded 2x2 dataframe (the spec's `name,age` sample). -/
def df0 : Dataframe :=
  { data := [ [("name", "Alice"), ("age", "30")],
              [("name", "Bob"), ("age", "25")] ],
    filename := "test.csv", rows := 2, columns := 2 }

/-- A configured backend handle. -/
def llm0 : LLM := { tag := "gpt-4" }

/-- Fresh session: nothing uploaded, nothing configured. -/
def stEmpty : SessionState := { currentDataframe := none, currentLLM := none }

/-- Session with a dataset but no backend. -/
def stData : SessionState := { currentDataframe := some df0, currentLLM := none }

/-- Session with both a dataset and a backend. -/
def stFull : SessionState := { currentDataframe := some df0, currentLLM := some llm0 }

/-- Plain analyze arguments: a query, no inline configuration. -/
def argsPlain : ToolArgs := { query := some "count rows", llm_config := none, model := none }

/-- An inline configuration object. -/
def cfg1 : LLMConfig := { model := some "gpt-4" }

/-- Analyze arguments carrying inline configuration `cfg1`. -/
def argsWithCfg : ToolArgs :=
  { query := some "count rows", llm_config := some cfg1, model := none }

/-- A constant session history for the SSE witnesses. -/
def sessConst : Nat → SessionState := fun _ => stData

/-- Concrete MCP params for the dispatcher witnesses. -/
def params0 : MCPParams := { name := "analyze_data", arguments := argsPlain }

/-- C1: any POST /mcp request whose method is none of initialize,
notifications/initialized, tools/list, tools/call yields the error
envelope `{error: {code: -1, message}}` with the offending method string
embedded in the message, at HTTP status 400 (in particular never 500),
with the session untouched. -/
theorem mcp_unknown_method_rejected
    (initFn : MCPParams → Except String MCPResultValue)
    (listToolsFn : Unit → Except String MCPResultValue)
    (cfgLLM : LLMConfig → Except String LLM)
    (analyze : Dataframe → Option String → LLM → Except String AnalysisResult)
    (st : SessionState) (req : MCPRequest)
    (h1 : req.method ≠ "initialize")
    (h2 : req.method ≠ "notifications/initialized")
    (h3 : req.method ≠ "tools/list")
    (h4 : req.method ≠ "tools/call") :
    ∃ msg, handleMcp initFn listToolsFn cfgLLM analyze st req
        = (st, { status := 400, body := .errorBody (-1) msg })
      ∧ ∃ pre post, msg = pre ++ req.method ++ post := by
  refine ⟨"不支持的MCP方法: " ++ req.method, ?_, "不支持的MCP方法: ", "", by simp⟩
  simp [handleMcp, h1, h2, h3, h4]

/-- Witness for C1 at the concrete method string "tools/unknown". -/
theorem mcp_unknown_method_rejected_witness :
    ∃ msg, handleMcp initFn0 listTools0 cfgSuccess anSuccess stEmpty
        { method := "tools/unknown", params := params0 }
        = (stEmpty, { status := 400, body := .errorBody (-1) msg })
      ∧ ∃ pre post, msg = pre ++ "tools/unknown" ++ post :=
  mcp_unknown_method_rejected initFn0 listTools0 cfgSuccess anSuccess stEmpty
    { method := "tools/unknown", params := params0 }
    (by decide) (by decide) (by decide) (by decide)

/-- C2: handleAnalyzeData checks its preconditions first-failure-wins:
with no dataset it fails with the NoDatasetLoaded message (upload a
file first), whatever `currentLLM` holds and whatever the arguments
carry; only with a dataset present, no inline `llm_config` and no
configured LLM does it fail with the NoBackendConfigured message. -/
theorem analyze_precondition_order
    (cfgLLM : LLMConfig → Except String LLM)
    (analyze : Dataframe → Option String → LLM → Except String AnalysisResult)
    (st : SessionState) (args : ToolArgs) :
    (st.currentDataframe = none →
       handleAnalyzeData cfgLLM analyze st args
         = (st, .error (analyzeFailPre ++ noDatasetMsg)))
  ∧ (∀ df, st.currentDataframe = some df → args.llm_config = none →
       st.currentLLM = none →
       handleAnalyzeData cfgLLM analyze st args
         = (st, .error (analyzeFailPre ++ noLLMMsg))) := by
  constructor
  · intro h
    simp [handleAnalyzeData, h]
  · intro df h1 h2 h3
    simp [handleAnalyzeData, h1, h2, h3]

/-- Witness for C2: no dataset (backend configured) gives the upload-first
error; dataset without backend gives the configure-LLM error. -/
theorem analyze_precondition_order_witness :
    handleAnalyzeData cfgSuccess anSuccess
        { currentDataframe := none, currentLLM := some llm0 } argsPlain
      = ({ currentDataframe := none, currentLLM := some llm0 },
         .error (analyzeFailPre ++ noDatasetMsg))
  ∧ handleAnalyzeData cfgSuccess anSuccess stData argsPlain
      = (stData, .error (analyzeFailPre ++ noLLMMsg)) :=
  ⟨(analyze_precondition_order cfgSuccess anSuccess
      { currentDataframe := none, currentLLM := some llm0 } argsPlain).1 rfl,
   (analyze_precondition_order cfgSuccess anSuccess stData argsPlain).2
      df0 rfl rfl rfl⟩

/-- C7: handleToolCall on any tool name other than analyze_data and
configure_llm fails without touching the session, and the error message
embeds the requested tool name. -/
theorem toolcall_unknown_tool_rejected
    (cfgLLM : LLMConfig → Except String LLM)
    (analyze : Dataframe → Option String → LLM → Except String AnalysisResult)
    (st : SessionState) (params : MCPParams)
    (h1 : params.name ≠ "analyze_data")
    (h2 : params.name ≠ "configure_llm") :
    ∃ msg, handleToolCall cfgLLM analyze st params = (st, .error msg)
      ∧ ∃ pre post, msg = pre ++ params.name ++ post := by
  refine ⟨"未知的工具: " ++ params.name, ?_, "未知的工具: ", "", by simp⟩
  simp [handleToolCall, h1, h2]

/-- Witness for C7 at the concrete tool name "delete_data". -/
theorem toolcall_unknown_tool_rejected_witness :
    ∃ msg, handleToolCall cfgSuccess anSuccess stFull
        { name := "delete_data", arguments := argsPlain } = (stFull, .error msg)
      ∧ ∃ pre post, msg = pre ++ "delete_data" ++ post :=
  toolcall_unknown_tool_rejected cfgSuccess anSuccess stFull
    { name := "delete_data", arguments := argsPlain } (by decide) (by decide)

/-- C10: POST /analyze rejects an empty-string query exactly like an
absent one — HTTP 400 with the missing-query error and an unchanged
session, independently of the collaborators and of any inline
`llm_config` — so handleAnalyzeData is never reached. -/
theorem analyze_endpoint_falsy_query_rejected
    (cfgLLM : LLMConfig → Except String LLM)
    (analyze : Dataframe → Option String → LLM → Except String AnalysisResult)
    (st : SessionState) (llm_config : Option LLMConfig) :
    analyzeEndpoint cfgLLM analyze st (some "") llm_config
      = (st, { status := 400, body := .err "请提供分析查询" })
  ∧ analyzeEndpoint cfgLLM analyze st none llm_config
      = (st, { status := 400, body := .err "请提供分析查询" }) := by
  constructor
  · simp [analyzeEndpoint, jsFalsyStr]
  · simp [analyzeEndpoint, jsFalsyStr]

/-- A previously configured backend handle, distinct from `llm0`. -/
def llmOld : LLM := { tag := "old-llm" }

/-- Session with a dataset and an older backend. -/
def stOld : SessionState := { currentDataframe := some df0, currentLLM := some llmOld }

/-- C3 counterexample: with no dataset loaded, an analyze_data call
carrying inline configuration (which the configurator would accept as
`llm0`) leaves `currentLLM` untouched — the inline store does NOT happen
before the dataset precondition check. -/
theorem analyze_inline_config_counterexample :
    argsWithCfg.llm_config = some cfg1
  ∧ cfgSuccess cfg1 = .ok llm0
  ∧ stEmpty.currentDataframe = none
  ∧ (handleAnalyzeData cfgSuccess anSuccess stEmpty argsWithCfg).1.currentLLM = none
  ∧ (handleAnalyzeData cfgSuccess anSuccess stEmpty argsWithCfg).1.currentLLM
      ≠ some llm0 := by
  refine ⟨rfl, rfl, rfl, rfl, ?_⟩
  intro h
  exact Option.noConfusion h

/-- C3 amended: when a dataset IS loaded, an analyze_data call carrying
inline configuration stores the configurator's result into
`currentLLM`, unconditionally overwriting any existing backend and
persisting in the returned session; the store happens after the
dataset-presence check, so with no dataset loaded the session is
returned unchanged. -/
theorem analyze_inline_config_overwrites
    (cfgLLM : LLMConfig → Except String LLM)
    (analyze : Dataframe → Option String → LLM → Except String AnalysisResult)
    (st : SessionState) (args : ToolArgs) :
    (∀ df cfg llm, st.currentDataframe = some df → args.llm_config = some cfg →
        cfgLLM cfg = .ok llm →
        (handleAnalyzeData cfgLLM analyze st args).1
          = { st with currentLLM := some llm })
  ∧ (st.currentDataframe = none →
        (handleAnalyzeData cfgLLM analyze st args).1 = st) := by
  constructor
  · intro df cfg llm h1 h2 h3
    simp [handleAnalyzeData, h1, h2, h3]
  · intro h
    simp [handleAnalyzeData, h]

/-- Witness for the amended C3: the old backend `llmOld` is overwritten
by `llm0` and persists; with no dataset the session is unchanged. -/
theorem analyze_inline_config_overwrites_witness :
    (handleAnalyzeData cfgSuccess anSuccess stOld argsWithCfg).1
      = { stOld with currentLLM := some llm0 }
  ∧ (handleAnalyzeData cfgSuccess anSuccess stEmpty argsWithCfg).1 = stEmpty :=
  ⟨(analyze_inline_config_overwrites cfgSuccess anSuccess stOld argsWithCfg).1
      df0 cfg1 llm0 rfl rfl rfl,
   (analyze_inline_config_overwrites cfgSuccess anSuccess stEmpty argsWithCfg).2 rfl⟩

/-- C5 counterexample: an AnalysisEngine failure and an inline
backend-configuration failure inside analyze_data both surface with the
`数据分析失败: ` ("data analysis failed") prefix, not the
`LLM配置失败: ` ("LLM configuration failed") prefix for either step. -/
theorem analyze_failure_wrap_counterexample :
    (handleAnalyzeData cfgSuccess anReject stFull argsPlain).2
      = .error (analyzeFailPre ++ "引擎故障")
  ∧ (handleAnalyzeData cfgReject anSuccess stData argsWithCfg).2
      = .error (analyzeFailPre ++ "配置失败原因")
  ∧ analyzeFailPre ++ "引擎故障" ≠ cfgFailPre ++ "引擎故障"
  ∧ analyzeFailPre ++ "配置失败原因" ≠ cfgFailPre ++ "配置失败原因" := by
  refine ⟨rfl, rfl, by decide, by decide⟩

/-- C5 amended: every failure inside analyze_data — inline configuration
(step 1), or the engine call (step 3) whether the backend came from the
session or from the inline store — is re-raised with the single
`数据分析失败: ` prefix and the original message as suffix; the
`LLM配置失败: ` prefix belongs to the configure_llm tool alone. -/
theorem analyze_failure_wrap
    (cfgLLM : LLMConfig → Except String LLM)
    (analyze : Dataframe → Option String → LLM → Except String AnalysisResult)
    (st : SessionState) (args : ToolArgs) :
    (∀ df cfg m, st.currentDataframe = some df → args.llm_config = some cfg →
        cfgLLM cfg = .error m →
        (handleAnalyzeData cfgLLM analyze st args).2
          = .error (analyzeFailPre ++ m))
  ∧ (∀ df llm m, st.currentDataframe = some df → args.llm_config = none →
        st.currentLLM = some llm → analyze df args.query llm = .error m →
        (handleAnalyzeData cfgLLM analyze st args).2
          = .error (analyzeFailPre ++ m))
  ∧ (∀ df cfg llm m, st.currentDataframe = some df → args.llm_config = some cfg →
        cfgLLM cfg = .ok llm → analyze df args.query llm = .error m →
        (handleAnalyzeData cfgLLM analyze st args).2
          = .error (analyzeFailPre ++ m))
  ∧ (∀ m, cfgLLM { model := args.model } = .error m →
        (handleConfigureLLM cfgLLM st args).2 = .error (cfgFailPre ++ m)) := by
  refine ⟨?_, ?_, ?_, ?_⟩
  · intro df cfg m h1 h2 h3
    simp [handleAnalyzeData, h1, h2, h3]
  · intro df llm m h1 h2 h3 h4
    simp [handleAnalyzeData, runAnalysis, h1, h2, h3, h4]
  · intro df cfg llm m h1 h2 h3 h4
    simp [handleAnalyzeData, runAnalysis, h1, h2, h3, h4]
  · intro m h
    simp [handleConfigureLLM, h]

/-- Witness for the amended C5 on all four paths. -/
theorem analyze_failure_wrap_witness :
    (handleAnalyzeData cfgReject anSuccess stData argsWithCfg).2
      = .error (analyzeFailPre ++ "配置失败原因")
  ∧ (handleAnalyzeData cfgSuccess anReject stFull argsPlain).2
      = .error (analyzeFailPre ++ "引擎故障")
  ∧ (handleAnalyzeData cfgSuccess anReject stOld argsWithCfg).2
      = .error (analyzeFailPre ++ "引擎故障")
  ∧ (handleConfigureLLM cfgReject stEmpty argsPlain).2
      = .error (cfgFailPre ++ "配置失败原因") :=
  ⟨(analyze_failure_wrap cfgReject anSuccess stData argsWithCfg).1
      df0 cfg1 "配置失败原因" rfl rfl rfl,
   (analyze_failure_wrap cfgSuccess anReject stFull argsPlain).2.1
      df0 llm0 "引擎故障" rfl rfl rfl rfl,
   (analyze_failure_wrap cfgSuccess anReject stOld argsWithCfg).2.2.1
      df0 cfg1 llm0 "引擎故障" rfl rfl rfl rfl,
   (analyze_failure_wrap cfgReject anSuccess stEmpty argsPlain).2.2.2
      "配置失败原因" rfl⟩

/-- C4: per SSE connection, the instant of subscribe carries exactly the
`connection` event followed by one `status` snapshot of the current
session flags (so the first heartbeat, due at 30000ms, comes after
both); while open, nothing is emitted off the 30s grid, a heartbeat is
emitted at every 30s tick, and a fresh status snapshot at every 60s tick
(after the heartbeat registered first); once the client disconnects both
timers are cleared and nothing further is emitted. -/
theorem sse_lifecycle (sess : Nat → SessionState) (closeAt : Option Nat) :
    (sseEventsAt sess closeAt 0
        = [SSEEvent.connection sseConnMessage 0, sendStatusEvent (sess 0) 0])
  ∧ (∀ t, 0 < t → sseOpen closeAt t = true → t % 30000 ≠ 0 →
        sseEventsAt sess closeAt t = [])
  ∧ (∀ t, 0 < t → sseOpen closeAt t = true → t % 30000 = 0 → t % 60000 ≠ 0 →
        sseEventsAt sess closeAt t = [SSEEvent.heartbeat t])
  ∧ (∀ t, 0 < t → sseOpen closeAt t = true → t % 60000 = 0 →
        sseEventsAt sess closeAt t
          = [SSEEvent.heartbeat t, sendStatusEvent (sess t) t])
  ∧ (∀ t c, closeAt = some c → c ≤ t → 0 < t →
        sseEventsAt sess closeAt t = []) := by
  refine ⟨by simp [sseEventsAt], ?_, ?_, ?_, ?_⟩
  · intro t ht hopen h30
    have h60 : t % 60000 ≠ 0 := by omega
    simp [sseEventsAt, ht.ne', hopen, h30, h60]
  · intro t ht hopen h30 h60
    simp [sseEventsAt, ht.ne', hopen, h30, h60]
  · intro t ht hopen h60
    have h30 : t % 30000 = 0 := by omega
    simp [sseEventsAt, ht.ne', hopen, h30, h60]
  · intro t c hc hct ht
    have hcl : sseOpen closeAt t = false := by
      subst hc
      simp [sseOpen]
      omega
    simp [sseEventsAt, ht.ne', hcl]

/-- Witness for C4 on a connection closed at 90000ms: initial pair at 0,
heartbeat alone at 30000, heartbeat then status at 60000, silence at the
off-grid instant 45000 and at 120000 after the disconnect. -/
theorem sse_lifecycle_witness :
    sseEventsAt sessConst (some 90000) 0
      = [SSEEvent.connection sseConnMessage 0, sendStatusEvent (sessConst 0) 0]
  ∧ sseEventsAt sessConst (some 90000) 30000 = [SSEEvent.heartbeat 30000]
  ∧ sseEventsAt sessConst (some 90000) 60000
      = [SSEEvent.heartbeat 60000, sendStatusEvent (sessConst 60000) 60000]
  ∧ sseEventsAt sessConst (some 90000) 45000 = []
  ∧ sseEventsAt sessConst (some 90000) 120000 = [] :=
  ⟨(sse_lifecycle sessConst (some 90000)).1,
   (sse_lifecycle sessConst (some 90000)).2.2.1 30000
      (by decide) (by decide) (by decide) (by decide),
   (sse_lifecycle sessConst (some 90000)).2.2.2.1 60000
      (by decide) (by decide) (by decide),
   (sse_lifecycle sessConst (some 90000)).2.1 45000
      (by decide) (by decide) (by decide),
   (sse_lifecycle sessConst (some 90000)).2.2.2.2 120000 90000
      rfl (by decide) (by decide)⟩

/-- C6: a successful upload replaces `currentDataframe` wholesale with a
dataframe holding exactly the loaded rows (whatever dataset was there
before, and leaving `currentLLM` alone), whose stored `rows` equals the
number of loaded rows and whose stored `columns` equals the key-count of
the first row, or zero when no rows were loaded. -/
theorem upload_replaces_dataset
    (loadFile : String → Except String (List Row))
    (st : SessionState) (fname : String) (data : List Row)
    (h : loadFile fname = .ok data) :
    ∃ df, (uploadHandler loadFile (some fname) st).1
        = { st with currentDataframe := some df }
      ∧ df.data = data
      ∧ df.filename = fname
      ∧ df.rows = df.data.length
      ∧ (∀ r rest, df.data = r :: rest → df.columns = r.length)
      ∧ (df.data = [] → df.columns = 0) := by
  refine ⟨{ data := data, filename := fname,
            rows := data.length, columns := jsColumns data },
          by simp [uploadHandler, h], rfl, rfl, rfl, ?_, ?_⟩
  · intro r rest hr
    simp only [hr]
    subst hr
    rfl
  · intro he
    subst he
    rfl

/-- Rows of a second dataset "B" for the upload witnesses. -/
def rowsB : List Row := [ [("city", "SF")], [("city", "LA")], [("city", "NY")] ]

/-- A table loader that always yields `rowsB`. -/
def loadB : String → Except String (List Row) := fun _ => .ok rowsB

/-- A table loader that always rejects. -/
def loadReject : String → Except String (List Row) := fun _ => .error "读取文件失败"

/-- Witness for C6: uploading dataset B over a session already holding
`df0` (dataset A) leaves exactly B. -/
theorem upload_replaces_dataset_witness :
    ∃ df, (uploadHandler loadB (some "b.csv") stData).1
        = { stData with currentDataframe := some df }
      ∧ df.data = rowsB
      ∧ df.filename = "b.csv"
      ∧ df.rows = df.data.length
      ∧ (∀ r rest, df.data = r :: rest → df.columns = r.length)
      ∧ (df.data = [] → df.columns = 0) :=
  upload_replaces_dataset loadB stData "b.csv" rowsB rfl

/-- C8: a successful POST /upload answers HTTP 200 with the body
`{message, filename, rows, columns, preview}` whose preview is the first
5 loaded rows (hence all of them when fewer than 5 were loaded), and a
load failure answers HTTP 500 with an `{error}` body. -/
theorem upload_response_shape
    (loadFile : String → Except String (List Row))
    (st : SessionState) (fname : String) :
    (∀ data, loadFile fname = .ok data →
        (uploadHandler loadFile (some fname) st).2
          = { status := 200,
              body := .ok { message := "文件上传成功", filename := fname,
                            rows := data.length, columns := jsColumns data,
                            preview := data.take 5 } }
        ∧ (data.length < 5 → data.take 5 = data))
  ∧ (∀ m, loadFile fname = .error m →
        (uploadHandler loadFile (some fname) st).2
          = { status := 500, body := .err m }) := by
  constructor
  · intro data h
    refine ⟨by simp [uploadHandler, h], fun hlt => ?_⟩
    exact List.take_of_length_le (by omega)
  · intro m h
    simp [uploadHandler, h]

/-- Witness for C8: the 3-row upload shows the 200 shape with its full
3-row preview, and the rejecting loader shows the 500 error body. -/
theorem upload_response_shape_witness :
    (uploadHandler loadB (some "b.csv") stEmpty).2
      = { status := 200,
          body := .ok { message := "文件上传成功", filename := "b.csv",
                        rows := rowsB.length, columns := jsColumns rowsB,
                        preview := rowsB.take 5 } }
  ∧ rowsB.take 5 = rowsB
  ∧ (uploadHandler loadReject (some "b.csv") stEmpty).2
      = { status := 500, body := .err "读取文件失败" } :=
  ⟨((upload_response_shape loadB stEmpty "b.csv").1 rowsB rfl).1,
   ((upload_response_shape loadB stEmpty "b.csv").1 rowsB rfl).2 (by decide),
   (upload_response_shape loadReject stEmpty "b.csv").2 "读取文件失败" rfl⟩

/-- C9: when the table loader rejects, POST /upload answers HTTP 500 and
returns the session exactly as it was — in particular a previously
loaded dataset stays current, because `currentDataframe` is only written
after a successful load. -/
theorem upload_failure_preserves_session
    (loadFile : String → Except String (List Row))
    (st : SessionState) (fname : String) (m : String)
    (h : loadFile fname = .error m) :
    uploadHandler loadFile (some fname) st
      = (st, { status := 500, body := .err m }) := by
  simp [uploadHandler, h]

/-- Witness for C9: the rejecting loader over a session holding `df0`
leaves that session (dataset included) intact and answers 500. -/
theorem upload_failure_preserves_session_witness :
    uploadHandler loadReject (some "b.csv") stData
      = (stData, { status := 500, body := .err "读取文件失败" }) :=
  upload_failure_preserves_session loadReject stData "b.csv" "读取文件失败" rfl
